import Mathlib

/-!
Verification of the parity-testing harness in `scripts/parity_test.py`.

Shallow embedding conventions:
* Python floats are modelled with exact real-number semantics (`ℝ`), and
  quantities that the source computes from integer pixel data without a
  square root (means, variances, covariances, squared errors) are kept in
  `ℚ`, where they are exact.
* A PIL image is modelled by the observations the script makes of it:
  the shape of `np.array(img)` (height, width, optional channel count),
  its flattened contents, and the flattened contents of
  `np.array(img.convert('L'))` (the single-channel luminance array).
* The filesystem is a list of `(directory, filename) ↦ file` bindings plus
  a list of existing directories.  An unreadable file is `FileData.corrupt`;
  the generated HTML report is `FileData.doc results` (content abstracted to
  the structured data it renders).
* An uncaught Python exception is `Except.error ()`.
* `float('inf')` from `calculate_mse` is `⊤` in `WithTop ℚ`.
-/

/-- A loaded PIL image, modelled by the numpy views the script takes of it:
`np.array(img)` has shape `h × w` (`channels = none`) or `h × w × c`
(`channels = some c`) with flattened row-major entries `data`, and
`np.array(img.convert('L'))` has shape `h × w` with flattened entries
`grayData`. -/
structure Img where
  h : ℕ
  w : ℕ
  channels : Option ℕ
  data : List ℚ
  grayData : List ℚ
  deriving DecidableEq

/-- Number of scalar entries per pixel of `np.array(img)`. -/
def Img.channelCount (g : Img) : ℕ :=
  match g.channels with
  | none => 1
  | some c => c

/-- A well-formed image: positive dimensions and array sizes matching the
declared shape (every image loaded from an actual file satisfies this). -/
def Img.Valid (g : Img) : Prop :=
  0 < g.h ∧ 0 < g.w ∧ g.grayData.length = g.h * g.w ∧
    g.data.length = g.h * g.w * g.channelCount

instance (g : Img) : Decidable g.Valid := by
  unfold Img.Valid; infer_instance

/-- `np.mean` of a flattened array (exact rational value). -/
def listMean (l : List ℚ) : ℚ := l.sum / l.length

/-- `np.mean(arr)` for the luminance array (`mean1`/`mean2` in
`calculate_ssim`). -/
def grayMean (g : Img) : ℚ := listMean g.grayData

/-- The variance `np.mean((arr - mean)**2)` underlying `np.std(arr)`. -/
def grayVar (g : Img) : ℚ :=
  listMean (g.grayData.map (fun x => (x - grayMean g) ^ 2))

/-- `np.std(arr)` (`std1`/`std2` in `calculate_ssim`): square root of the
population variance, as a real number. -/
noncomputable def grayStd (g : Img) : ℝ := Real.sqrt (grayVar g)

/-- Index used by numpy broadcasting: a dimension of size 1 is repeated. -/
def bcastIdx (d i : ℕ) : ℕ := if d = 1 then 0 else i

/-- Entry `(i, j)` of the luminance array (row-major). -/
def grayPix (g : Img) (i j : ℕ) : ℚ := g.grayData.getD (i * g.w + j) 0

/-- The luminance array broadcast to shape `H × W`, flattened row-major:
entry `k` is the source pixel at row `k / W`, column `k % W`, with size-1
source dimensions repeated (numpy broadcasting). -/
def bcastList (g : Img) (H W : ℕ) : List ℚ :=
  (List.range (H * W)).map
    (fun k => grayPix g (bcastIdx g.h (k / W)) (bcastIdx g.w (k % W)))

/-- numpy's broadcast of one dimension pair: equal sizes or a size of 1;
`none` models the `ValueError` numpy raises otherwise. -/
def bdim (a b : ℕ) : Option ℕ :=
  if a = b then some a else if a = 1 then some b else if b = 1 then some a else none

/-- `np.mean((arr1 - mean1) * (arr2 - mean2))` (`cov` in `calculate_ssim`):
the elementwise product follows numpy broadcasting, and `none` models the
uncaught `ValueError` raised when the two luminance shapes do not
broadcast. -/
def grayCov (g1 g2 : Img) : Option ℚ :=
  match bdim g1.h g2.h, bdim g1.w g2.w with
  | some H, some W =>
      some (listMean (List.zipWith
        (fun a b => (a - grayMean g1) * (b - grayMean g2))
        (bcastList g1 H W) (bcastList g2 H W)))
  | _, _ => none

/-- `np.array_equal(arr1, arr2)` on the two luminance arrays: same shape and
same entries. -/
def arrayEqual (g1 g2 : Img) : Bool :=
  decide (g1.h = g2.h ∧ g1.w = g2.w ∧ g1.grayData = g2.grayData)

open Classical

/-- `ParityTester.calculate_ssim`.  Returns `none` when the covariance line
raises (shape broadcast failure), which the source does not catch.  The
module-level `HAS_PIL` flag is passed explicitly. -/
noncomputable def calculate_ssim (hasPIL : Bool) (img1 img2 : Img) : Option ℝ :=
  if hasPIL = false then some 0
  else
    match grayCov img1 img2 with
    | none => none
    | some cov =>
      if grayStd img1 = 0 ∨ grayStd img2 = 0 then
        some (if arrayEqual img1 img2 then 1 else 0)
      else
        some (max 0 (min 1 ((cov : ℝ) / (grayStd img1 * grayStd img2))))

/-- `np.array(img).shape` as a list of dimensions. -/
def npShape (g : Img) : List ℕ :=
  match g.channels with
  | none => [g.h, g.w]
  | some c => [g.h, g.w, c]

/-- `ParityTester.calculate_mse`: `⊤` is the `float('inf')` sentinel
returned when the full array shapes differ. -/
def calculate_mse (hasPIL : Bool) (img1 img2 : Img) : WithTop ℚ :=
  if hasPIL = false then 0
  else if npShape img1 ≠ npShape img2 then ⊤
  else ((listMean (List.zipWith (fun a b => (a - b) ^ 2) img1.data img2.data) : ℚ) : WithTop ℚ)

/-- The `ComparisonResult` dataclass. -/
structure ComparisonResult where
  map_name : String
  position : String
  ssim : ℝ
  mse : WithTop ℚ
  passed : Bool
  threshold : ℚ

/-- One entry of `test_positions` (a JSON dict in the source). -/
structure TestPosition where
  name : String
  x : ℚ
  y : ℚ
  z : ℚ
  pitch : ℚ
  yaw : ℚ
  ssim_threshold : Option ℚ

/-- The `ParityConfig` dataclass (paths kept as opaque strings). -/
structure ParityConfig where
  map_name : String
  game_dir : String
  screenshot_dir : String
  golden_dir : String
  test_positions : List TestPosition
  cvars : List (String × String)
  timeout : ℕ

/-- A file key: `(directory, filename)`. -/
abbrev FKey := String × String

/-- Contents of one file on disk, as far as the script observes them. -/
inductive FileData where
  | img (image : Img)
  | corrupt
  | doc (results : List ComparisonResult)

/-- `Image.open`: succeeds exactly on image files. -/
def loadImage : FileData → Option Img
  | .img i => some i
  | _ => none

/-- The filesystem state: existing directories and files. -/
structure FS where
  dirs : List String
  files : List (FKey × FileData)

/-- Association-list lookup for files (later writes shadow earlier ones). -/
def findFile : List (FKey × FileData) → FKey → Option FileData
  | [], _ => none
  | (q, d) :: rest, p => if p = q then some d else findFile rest p

/-- Path lookup. -/
def FS.lookup (fs : FS) (p : FKey) : Option FileData := findFile fs.files p

/-- Writing (or overwriting) one file. -/
def FS.write (fs : FS) (p : FKey) (d : FileData) : FS :=
  ⟨fs.dirs, (p, d) :: fs.files⟩

/-- `mkdir(parents=True, exist_ok=True)`. -/
def FS.mkdir (fs : FS) (d : String) : FS := ⟨d :: fs.dirs, fs.files⟩

/-- `path.exists()`. -/
def FS.hasFile (fs : FS) (p : FKey) : Bool := (fs.lookup p).isSome

/-- `f"{map_name}_{position['name']}.tga"`. -/
def screenshotName (cfg : ParityConfig) (pos : TestPosition) : String :=
  cfg.map_name ++ "_" ++ pos.name ++ ".tga"

/-- `position.get('ssim_threshold', 0.95)`. -/
def thresholdOf (pos : TestPosition) : ℚ := pos.ssim_threshold.getD 0.95

/-- `ParityTester.compare_screenshots`.  `Except.error ()` models an uncaught
exception (the broadcast `ValueError` from `calculate_ssim`, or `Image.open`
failing on the bootstrap-copy line, neither of which the source catches);
`.ok (none, fs)` models the `return None` paths. -/
noncomputable def compare_screenshots (hasPIL : Bool) (cfg : ParityConfig)
    (pos : TestPosition) (fs : FS) : Except Unit (Option ComparisonResult × FS) :=
  if hasPIL = false then .ok (none, fs)
  else
    let name := screenshotName cfg pos
    let testPath : FKey := (cfg.screenshot_dir, name)
    let goldenPath : FKey := (cfg.golden_dir, name)
    match fs.lookup testPath with
    | none => .ok (none, fs)
    | some testFile =>
      match fs.lookup goldenPath with
      | none =>
        let fs1 := fs.mkdir cfg.golden_dir
        match loadImage testFile with
        | none => .error ()
        | some img =>
          .ok (some { map_name := cfg.map_name, position := pos.name,
                      ssim := 1, mse := 0, passed := true, threshold := 0.95 },
               fs1.write goldenPath (.img img))
      | some goldenFile =>
        match loadImage testFile, loadImage goldenFile with
        | some imgTest, some imgGolden =>
          match calculate_ssim hasPIL imgTest imgGolden with
          | none => .error ()
          | some s =>
            let mseVal := calculate_mse hasPIL imgTest imgGolden
            let th := thresholdOf pos
            .ok (some { map_name := cfg.map_name, position := pos.name,
                        ssim := s, mse := mseVal,
                        passed := decide ((th : ℝ) ≤ s), threshold := th }, fs)
        | _, _ => .ok (none, fs)

/-- What the external game process does for one launch: the executable is
missing, the run times out, or the process exits having written a screenshot
(or not).  This is the harness's only view of the external application. -/
inductive LaunchOutcome where
  | noExe
  | timeout
  | exited (shot : Option Img)

/-- `ParityTester.launch_game_headless`.  Returns
`(screenshot captured, filesystem afterwards, process was killed)`; the
third component records the `process.kill()` call on the timeout path. -/
def launch_game_headless (cfg : ParityConfig) (pos : TestPosition)
    (outcome : LaunchOutcome) (fs : FS) : Bool × FS × Bool :=
  match outcome with
  | .noExe => (false, fs, false)
  | .timeout => (false, fs, true)
  | .exited shot =>
    let fs1 := match shot with
      | some img => fs.write (cfg.screenshot_dir, screenshotName cfg pos) (.img img)
      | none => fs
    (fs1.hasFile (cfg.screenshot_dir, screenshotName cfg pos), fs1, false)

/-- One iteration of the loop in `ParityTester.run`: launch, and on success
compare.  Result: `(outcome recorded if any, filesystem, process killed)`. -/
noncomputable def posStep (hasPIL : Bool) (cfg : ParityConfig)
    (env : ℕ → LaunchOutcome) (i : ℕ) (pos : TestPosition) (fs : FS) :
    Except Unit (Option ComparisonResult × FS × Bool) :=
  match launch_game_headless cfg pos (env i) fs with
  | (false, fs1, killed) => .ok (none, fs1, killed)
  | (true, fs1, killed) =>
    match compare_screenshots hasPIL cfg pos fs1 with
    | .error e => .error e
    | .ok (r, fs2) => .ok (r, fs2, killed)

/-- The position loop of `ParityTester.run`, accumulating `self.results`
in order.  `env i` is the external process behaviour for the i-th launch. -/
noncomputable def processPositions (hasPIL : Bool) (cfg : ParityConfig)
    (env : ℕ → LaunchOutcome) :
    ℕ → List TestPosition → List ComparisonResult → FS →
    Except Unit (List ComparisonResult × FS)
  | _, [], acc, fs => .ok (acc, fs)
  | i, pos :: rest, acc, fs =>
    match posStep hasPIL cfg env i pos fs with
    | .error e => .error e
    | .ok (none, fs1, _) => processPositions hasPIL cfg env (i + 1) rest acc fs1
    | .ok (some r, fs1, _) =>
        processPositions hasPIL cfg env (i + 1) rest (acc ++ [r]) fs1

/-- The fixed report filename. -/
def reportName : String := "parity_report.html"

/-- `ParityTester.generate_report`: writes the HTML report (content
abstracted to the result list it renders) into the screenshot directory.
`writeOk = false` models `open(report_path, 'w')` or the write failing,
which the source does not catch. -/
def generate_report (writeOk : Bool) (cfg : ParityConfig)
    (results : List ComparisonResult) (fs : FS) : Except Unit FS :=
  if writeOk then .ok (fs.write (cfg.screenshot_dir, reportName) (.doc results))
  else .error ()

/-- `ParityTester.run`: create the two directories, process every position,
generate the report when at least one outcome was recorded, and return
whether every recorded outcome passed (together with the recorded outcomes,
i.e. `self.results`, and the final filesystem). -/
noncomputable def runTester (hasPIL : Bool) (cfg : ParityConfig)
    (env : ℕ → LaunchOutcome) (writeOk : Bool) (fs : FS) :
    Except Unit (Bool × List ComparisonResult × FS) :=
  let fs0 := (fs.mkdir cfg.screenshot_dir).mkdir cfg.golden_dir
  match processPositions hasPIL cfg env 0 cfg.test_positions [] fs0 with
  | .error e => .error e
  | .ok (results, fs1) =>
    match (if results.isEmpty then Except.ok fs1
           else generate_report writeOk cfg results fs1) with
    | .error e => .error e
    | .ok fs2 => .ok (results.all (fun r => r.passed), results, fs2)

/-- The process exit code of `main`: `sys.exit(0 if success else 1)`, and
exit code 1 when an uncaught exception terminates the interpreter. -/
noncomputable def mainExitCode (hasPIL : Bool) (cfg : ParityConfig)
    (env : ℕ → LaunchOutcome) (writeOk : Bool) (fs : FS) : ℕ :=
  match runTester hasPIL cfg env writeOk fs with
  | .error _ => 1
  | .ok (success, _, _) => if success then 0 else 1

/-- Modelled from the spec: the similarity algorithm exactly as worded in
§4.2 of the specification ("convert both images to single-channel luminance;
compute mean and standard deviation of each; compute the covariance between
the two luminance fields; if either standard deviation is exactly zero,
similarity is 1.0 when the two luminance arrays are pixel-for-pixel
identical, else 0.0; otherwise covariance / (std1 * std2), clamped into
[0, 1]").  Used as the refinement reference for claim C1. -/
def spec_cov (g1 g2 : Img) : ℚ :=
  listMean (List.zipWith (fun a b => (a - grayMean g1) * (b - grayMean g2))
    g1.grayData g2.grayData)

/-- Modelled from the spec (see `spec_cov`): the full spec-worded similarity
value. -/
noncomputable def spec_similarity (g1 g2 : Img) : ℝ :=
  if grayStd g1 = 0 ∨ grayStd g2 = 0 then
    (if g1.h = g2.h ∧ g1.w = g2.w ∧ g1.grayData = g2.grayData then 1 else 0)
  else max 0 (min 1 ((spec_cov g1 g2 : ℝ) / (grayStd g1 * grayStd g2)))

/-- A filesystem containing no generated report document. -/
def docFree (fs : FS) : Prop :=
  ∀ p results, fs.lookup p ≠ some (.doc results)

/-! ### Helper lemmas -/

lemma listMean_nonneg {l : List ℚ} (h : ∀ x ∈ l, 0 ≤ x) : 0 ≤ listMean l := by
  unfold listMean
  exact div_nonneg (List.sum_nonneg h) (by positivity)

lemma grayVar_nonneg (g : Img) : 0 ≤ grayVar g := by
  unfold grayVar
  refine listMean_nonneg ?_
  intro x hx
  rcases List.mem_map.mp hx with ⟨a, _, rfl⟩
  positivity

lemma grayStd_eq_zero_iff (g : Img) : grayStd g = 0 ↔ grayVar g = 0 := by
  unfold grayStd
  rw [Real.sqrt_eq_zero']
  constructor
  · intro h
    have h0 : (0 : ℝ) ≤ (grayVar g : ℝ) := by exact_mod_cast grayVar_nonneg g
    exact_mod_cast le_antisymm h h0
  · intro h
    rw [h]; simp

lemma map_getD_range (l : List ℚ) :
    (List.range l.length).map (fun k => l.getD k 0) = l := by
  induction l with
  | nil => simp
  | cons a l ih =>
    simp only [List.length_cons, List.range_succ_eq_map, List.map_cons,
      List.map_map, List.getD_cons_zero, Function.comp_def, List.getD_cons_succ]
    rw [ih]

lemma bcast_index_self {h w k : ℕ} (hk : k < h * w) :
    bcastIdx h (k / w) * w + bcastIdx w (k % w) = k := by
  unfold bcastIdx
  by_cases hh : h = 1
  · by_cases hw : w = 1
    · subst hh; subst hw
      rw [if_pos rfl, if_pos rfl]
      omega
    · subst hh
      rw [if_pos rfl, if_neg hw, zero_mul, zero_add]
      rw [one_mul] at hk
      exact Nat.mod_eq_of_lt hk
  · by_cases hw : w = 1
    · subst hw
      rw [if_neg hh, if_pos rfl, Nat.div_one, mul_one, add_zero]
    · rw [if_neg hh, if_neg hw]
      exact Nat.div_add_mod' k w

lemma bdim_self (a : ℕ) : bdim a a = some a := by
  simp [bdim]

lemma bcast_self (g : Img) (hlen : g.grayData.length = g.h * g.w) :
    bcastList g g.h g.w = g.grayData := by
  unfold bcastList grayPix
  rw [show (List.range (g.h * g.w)).map
        (fun k => g.grayData.getD (bcastIdx g.h (k / g.w) * g.w + bcastIdx g.w (k % g.w)) 0) =
      (List.range (g.h * g.w)).map (fun k => g.grayData.getD k 0) from
    List.map_congr_left (fun k hk => by
      rw [List.mem_range] at hk
      rw [bcast_index_self hk])]
  rw [← hlen, map_getD_range]

lemma zipWith_self_eq_map (f : ℚ → ℚ → ℚ) (l : List ℚ) :
    List.zipWith f l l = l.map (fun a => f a a) := by
  induction l with
  | nil => simp
  | cons a l ih => simp [ih]

lemma grayCov_same_shape (g1 g2 : Img) (hh : g1.h = g2.h) (hw : g1.w = g2.w)
    (hl1 : g1.grayData.length = g1.h * g1.w)
    (hl2 : g2.grayData.length = g2.h * g2.w) :
    grayCov g1 g2 = some (spec_cov g1 g2) := by
  unfold grayCov spec_cov
  rw [← hh, ← hw, bdim_self, bdim_self]
  dsimp only
  rw [bcast_self g1 hl1]
  rw [hh, hw, bcast_self g2 hl2]

lemma ssim_self (g : Img) (hv : g.Valid) : calculate_ssim true g g = some 1 := by
  obtain ⟨-, -, hlen, -⟩ := hv
  unfold calculate_ssim
  rw [grayCov_same_shape g g rfl rfl hlen hlen]
  simp only [Bool.true_eq_false, if_false]
  by_cases hstd : grayStd g = 0
  · rw [if_pos (Or.inl hstd)]
    simp [arrayEqual]
  · rw [if_neg (by tauto)]
    have hvar : grayVar g ≠ 0 := fun h => hstd ((grayStd_eq_zero_iff g).mpr h)
    have hcov : spec_cov g g = grayVar g := by
      unfold spec_cov grayVar
      rw [zipWith_self_eq_map]
      congr 1
      refine List.map_congr_left ?_
      intro a _
      ring
    rw [hcov]
    have hmul : grayStd g * grayStd g = (grayVar g : ℝ) := by
      unfold grayStd
      exact Real.mul_self_sqrt (by exact_mod_cast grayVar_nonneg g)
    rw [hmul, div_self (by exact_mod_cast hvar)]
    norm_num

lemma mse_self (g : Img) : calculate_mse true g g = 0 := by
  unfold calculate_mse
  rw [if_neg (by simp), if_neg (by simp)]
  have : List.zipWith (fun a b => (a - b) ^ 2) g.data g.data =
      g.data.map (fun _ => (0 : ℚ)) := by
    rw [zipWith_self_eq_map]
    refine List.map_congr_left ?_
    intro a _
    ring
  rw [this]
  have hsum : (g.data.map (fun _ => (0 : ℚ))).sum = 0 := by
    apply List.sum_eq_zero
    intro x hx
    rcases List.mem_map.mp hx with ⟨-, -, rfl⟩
    rfl
  unfold listMean
  rw [hsum, zero_div]
  simp

lemma lookup_write (fs : FS) (p q : FKey) (d : FileData) :
    (fs.write p d).lookup q = if q = p then some d else fs.lookup q := by
  simp [FS.write, FS.lookup, findFile]

lemma lookup_write_self (fs : FS) (p : FKey) (d : FileData) :
    (fs.write p d).lookup p = some d := by
  simp [lookup_write]

lemma lookup_mkdir (fs : FS) (d : String) (p : FKey) :
    (fs.mkdir d).lookup p = fs.lookup p := rfl

lemma spec_similarity_range (g1 g2 : Img) :
    0 ≤ spec_similarity g1 g2 ∧ spec_similarity g1 g2 ≤ 1 := by
  unfold spec_similarity
  by_cases hstd : grayStd g1 = 0 ∨ grayStd g2 = 0
  · rw [if_pos hstd]
    by_cases heq : g1.h = g2.h ∧ g1.w = g2.w ∧ g1.grayData = g2.grayData
    · rw [if_pos heq]; norm_num
    · rw [if_neg heq]; norm_num
  · rw [if_neg hstd]
    refine ⟨le_max_left 0 _, max_le (by norm_num) (min_le_left 1 _)⟩

/-! ### Claim theorems -/

/-- C1 (amended: restricted to pairs whose luminance arrays have the same
shape): on such pairs `calculate_ssim` returns exactly the spec's algorithm
— zero-variance branch giving 1.0 / 0.0 by pixel-for-pixel identity,
otherwise covariance over the product of standard deviations clamped into
[0, 1] — and the returned value always lies in [0.0, 1.0]. -/
theorem c1_similarity_matches_spec (g1 g2 : Img)
    (hl1 : g1.grayData.length = g1.h * g1.w)
    (hl2 : g2.grayData.length = g2.h * g2.w)
    (hh : g1.h = g2.h) (hw : g1.w = g2.w) :
    calculate_ssim true g1 g2 = some (spec_similarity g1 g2) ∧
    0 ≤ spec_similarity g1 g2 ∧ spec_similarity g1 g2 ≤ 1 := by
  refine ⟨?_, spec_similarity_range g1 g2⟩
  unfold calculate_ssim
  rw [if_neg (by simp), grayCov_same_shape g1 g2 hh hw hl1 hl2]
  dsimp only
  unfold spec_similarity
  by_cases hstd : grayStd g1 = 0 ∨ grayStd g2 = 0
  · rw [if_pos hstd, if_pos hstd]
    congr 1
    refine if_congr ?_ rfl rfl
    simp [arrayEqual]
  · rw [if_neg hstd, if_neg hstd]

/-- A 2×2 flat single-channel image (all pixels 5). -/
def imgFlat2 : Img := ⟨2, 2, none, [5, 5, 5, 5], [5, 5, 5, 5]⟩

/-- A 3×3 flat single-channel image (all pixels 7). -/
def imgFlat3 : Img := ⟨3, 3, none, [7, 7, 7, 7, 7, 7, 7, 7, 7], [7, 7, 7, 7, 7, 7, 7, 7, 7]⟩

/-- C1 counterexample: for a 2×2 and a 3×3 image the claim's universally
quantified statement fails — the spec's algorithm yields 0.0 (zero variance,
arrays not identical), but `calculate_ssim` does not return it (the
covariance line raises, modelled as `none`). -/
theorem c1_counterexample :
    calculate_ssim true imgFlat2 imgFlat3 = none ∧
    spec_similarity imgFlat2 imgFlat3 = 0 := by
  constructor
  · unfold calculate_ssim
    rw [if_neg (by simp)]
    rw [show grayCov imgFlat2 imgFlat3 = none from rfl]
  · unfold spec_similarity
    have hstd : grayStd imgFlat2 = 0 := by
      refine (grayStd_eq_zero_iff imgFlat2).mpr ?_
      norm_num [grayVar, grayMean, listMean, imgFlat2]
    rw [if_pos (Or.inl hstd), if_neg (by decide)]

/-- C8: similarity of any valid single-channel image with itself is
exactly 1.0, whether through the zero-variance branch (flat image,
`np.array_equal` true) or through the clamped correlation branch
(covariance equals the variance, so the ratio is 1). -/
theorem c8_self_similarity (A : Img) (hv : A.Valid) (_hc : A.channels = none) :
    calculate_ssim true A A = some 1 :=
  ssim_self A hv

/-- A flat 1×1 single-channel image. -/
def imgUnit : Img := ⟨1, 1, none, [5], [5]⟩

/-- C8 witness: the flat 1×1 image, which exercises the zero-variance
branch. -/
theorem c8_witness :
    imgUnit.Valid ∧ imgUnit.channels = none ∧
    calculate_ssim true imgUnit imgUnit = some 1 :=
  ⟨by decide, rfl, c8_self_similarity imgUnit (by decide) rfl⟩

/-- Test position used in concrete scenarios (no configured threshold). -/
def posC3 : TestPosition := ⟨"p", 0, 0, 0, 0, 0, none⟩

/-- Config used in concrete scenarios. -/
def cfgC3 : ParityConfig := ⟨"m", "game", "shots", "golden", [posC3], [], 30⟩

/-- Filesystem holding a 2×2 candidate and a 3×3 reference for `posC3`. -/
def fsC3 : FS :=
  ⟨["shots", "golden"],
   [(("shots", "m_p.tga"), .img imgFlat2), (("golden", "m_p.tga"), .img imgFlat3)]⟩

/-- C3: at the failing input (2×2 vs 3×3 luminance arrays) the error metric
is indeed the infinity sentinel, but the comparison does not complete — the
covariance line of `calculate_ssim` raises (modelled `none`) and the
exception propagates out of `compare_screenshots` uncaught (`.error ()`),
aborting the run, contrary to the claim that a shape mismatch never aborts
the comparison. -/
theorem c3_shape_mismatch_crashes :
    calculate_mse true imgFlat2 imgFlat3 = ⊤ ∧
    calculate_ssim true imgFlat2 imgFlat3 = none ∧
    compare_screenshots true cfgC3 posC3 fsC3 = .error () := by
  refine ⟨rfl, ?_, rfl⟩
  unfold calculate_ssim
  rw [if_neg (by simp)]
  rw [show grayCov imgFlat2 imgFlat3 = none from rfl]

/-- The filesystem after the bootstrap path of `compare_screenshots`:
`golden_dir` created, candidate copied to the reference location. -/
def bootstrapFS (cfg : ParityConfig) (pos : TestPosition) (fs : FS) (img : Img) : FS :=
  (fs.mkdir cfg.golden_dir).write (cfg.golden_dir, screenshotName cfg pos) (.img img)

/-- C2: when the candidate exists and the reference does not, the comparator
creates the reference directory, copies the candidate to the reference
location, and returns similarity 1.0, error 0.0, passed, threshold 0.95; and
comparing the same candidate again against the now-existing reference passes
with similarity 1.0 (threshold bounded by 1, per the spec's invariant that
configured thresholds lie in [0,1]). -/
theorem c2_bootstrap (cfg : ParityConfig) (pos : TestPosition) (fs : FS) (img : Img)
    (htest : fs.lookup (cfg.screenshot_dir, screenshotName cfg pos) = some (.img img))
    (hgold : fs.lookup (cfg.golden_dir, screenshotName cfg pos) = none)
    (hv : img.Valid) (hth : thresholdOf pos ≤ 1) :
    compare_screenshots true cfg pos fs =
      .ok (some { map_name := cfg.map_name, position := pos.name, ssim := 1,
                  mse := 0, passed := true, threshold := 0.95 },
           bootstrapFS cfg pos fs img) ∧
    cfg.golden_dir ∈ (bootstrapFS cfg pos fs img).dirs ∧
    compare_screenshots true cfg pos (bootstrapFS cfg pos fs img) =
      .ok (some { map_name := cfg.map_name, position := pos.name, ssim := 1,
                  mse := 0, passed := true, threshold := thresholdOf pos },
           bootstrapFS cfg pos fs img) := by
  refine ⟨?_, ?_, ?_⟩
  · unfold compare_screenshots
    rw [if_neg (by simp)]
    dsimp only
    rw [htest, hgold]
    rfl
  · simp [bootstrapFS, FS.write, FS.mkdir]
  · have htest' : (bootstrapFS cfg pos fs img).lookup
        (cfg.screenshot_dir, screenshotName cfg pos) = some (.img img) := by
      unfold bootstrapFS
      rw [lookup_write]
      by_cases h : ((cfg.screenshot_dir, screenshotName cfg pos) : FKey) =
          (cfg.golden_dir, screenshotName cfg pos)
      · rw [if_pos h]
      · rw [if_neg h, lookup_mkdir, htest]
    have hgold' : (bootstrapFS cfg pos fs img).lookup
        (cfg.golden_dir, screenshotName cfg pos) = some (.img img) :=
      lookup_write_self _ _ _
    have hpass : decide ((thresholdOf pos : ℝ) ≤ (1 : ℝ)) = true :=
      decide_eq_true (by exact_mod_cast hth)
    unfold compare_screenshots
    rw [if_neg (by simp)]
    dsimp only
    rw [htest', hgold']
    dsimp only [loadImage]
    rw [ssim_self img hv]
    dsimp only
    rw [mse_self img, hpass]

/-- Position, config and filesystem for the C2 witness. -/
def posW2 : TestPosition := ⟨"p", 0, 0, 0, 0, 0, none⟩

/-- Config for the C2 witness. -/
def cfgW2 : ParityConfig := ⟨"m", "game", "shots", "golden", [posW2], [], 30⟩

/-- Filesystem for the C2 witness: candidate present, reference missing. -/
def fsW2 : FS := ⟨[], [(("shots", "m_p.tga"), .img imgUnit)]⟩

/-- C2 witness: concrete bootstrap followed by the re-comparison. -/
theorem c2_witness :
    fsW2.lookup ("shots", screenshotName cfgW2 posW2) = some (.img imgUnit) ∧
    fsW2.lookup ("golden", screenshotName cfgW2 posW2) = none ∧
    compare_screenshots true cfgW2 posW2 fsW2 =
      .ok (some { map_name := "m", position := "p", ssim := 1, mse := 0,
                  passed := true, threshold := 0.95 },
           bootstrapFS cfgW2 posW2 fsW2 imgUnit) ∧
    compare_screenshots true cfgW2 posW2 (bootstrapFS cfgW2 posW2 fsW2 imgUnit) =
      .ok (some { map_name := "m", position := "p", ssim := 1, mse := 0,
                  passed := true, threshold := 0.95 },
           bootstrapFS cfgW2 posW2 fsW2 imgUnit) := by
  have h := c2_bootstrap cfgW2 posW2 fsW2 imgUnit rfl rfl (by decide)
    (by norm_num [thresholdOf, posW2])
  exact ⟨rfl, rfl, h.1, h.2.2⟩

/-- A 1×7 image whose luminance deviations are (7,-7,1,-1,0,0,0). -/
def imgA89 : Img := ⟨1, 7, none, [14, 0, 8, 6, 7, 7, 7], [14, 0, 8, 6, 7, 7, 7]⟩

/-- A 1×7 image whose luminance deviations are (6,-6,4,-1,-3,1,-1); its
correlation with `imgA89` is exactly 89/100. -/
def imgB89 : Img := ⟨1, 7, none, [12, 0, 10, 5, 3, 7, 5], [12, 0, 10, 5, 3, 7, 5]⟩

lemma ssim89 : calculate_ssim true imgA89 imgB89 = some (89 / 100 : ℝ) := by
  have hcov : grayCov imgA89 imgB89 = some (spec_cov imgA89 imgB89) :=
    grayCov_same_shape _ _ rfl rfl rfl rfl
  have hcval : spec_cov imgA89 imgB89 = 89 / 7 := by
    norm_num [spec_cov, grayMean, listMean, imgA89, imgB89, List.zipWith]
  have hvarA : grayVar imgA89 = 100 / 7 := by
    norm_num [grayVar, grayMean, listMean, imgA89]
  have hvarB : grayVar imgB89 = 100 / 7 := by
    norm_num [grayVar, grayMean, listMean, imgB89]
  have hstdA : grayStd imgA89 = Real.sqrt (100 / 7) := by
    unfold grayStd; rw [hvarA]; norm_num
  have hstdB : grayStd imgB89 = Real.sqrt (100 / 7) := by
    unfold grayStd; rw [hvarB]; norm_num
  have hpos : (0 : ℝ) < 100 / 7 := by norm_num
  have hne : Real.sqrt (100 / 7) ≠ 0 := by
    rw [ne_eq, Real.sqrt_eq_zero']
    push_neg
    exact hpos
  have hcond : ¬(grayStd imgA89 = 0 ∨ grayStd imgB89 = 0) := by
    rw [hstdA, hstdB]
    simp [hne]
  unfold calculate_ssim
  rw [if_neg (by simp), hcov]
  dsimp only
  rw [if_neg hcond]
  congr 1
  rw [hcval, hstdA, hstdB, Real.mul_self_sqrt hpos.le]
  have hval : ((89 / 7 : ℚ) : ℝ) / ((100 : ℝ) / 7) = 89 / 100 := by
    push_cast
    norm_num
  rw [hval, min_eq_right (by norm_num), max_eq_right (by norm_num)]

/-- C6: when the reference exists and both images load, the recorded
outcome's `passed` is exactly `similarity ≥ thresholdUsed`, where
`thresholdUsed` is the position's configured `ssim_threshold` if present and
0.95 otherwise. -/
theorem c6_threshold_decision (cfg : ParityConfig) (pos : TestPosition) (fs : FS)
    (imgT imgG : Img) (s : ℝ)
    (htest : fs.lookup (cfg.screenshot_dir, screenshotName cfg pos) = some (.img imgT))
    (hgold : fs.lookup (cfg.golden_dir, screenshotName cfg pos) = some (.img imgG))
    (hssim : calculate_ssim true imgT imgG = some s) :
    compare_screenshots true cfg pos fs =
      .ok (some { map_name := cfg.map_name, position := pos.name, ssim := s,
                  mse := calculate_mse true imgT imgG,
                  passed := decide ((thresholdOf pos : ℝ) ≤ s),
                  threshold := thresholdOf pos }, fs) ∧
    (decide ((thresholdOf pos : ℝ) ≤ s) = true ↔ (thresholdOf pos : ℝ) ≤ s) ∧
    thresholdOf pos = (match pos.ssim_threshold with
                       | some t => t
                       | none => 0.95) := by
  refine ⟨?_, by simp, ?_⟩
  · unfold compare_screenshots
    rw [if_neg (by simp)]
    dsimp only
    rw [htest, hgold]
    dsimp only [loadImage]
    rw [hssim]
  · unfold thresholdOf
    cases pos.ssim_threshold <;> rfl

/-- Position with configured threshold 0.90 for the C6 witness. -/
def posW6 : TestPosition := ⟨"p", 0, 0, 0, 0, 0, some 0.9⟩

/-- Config for the C6 witness. -/
def cfgW6 : ParityConfig := ⟨"m", "game", "shots", "golden", [posW6], [], 30⟩

/-- Filesystem for the C6 witness: candidate `imgA89`, reference `imgB89`. -/
def fsW6 : FS :=
  ⟨[], [(("shots", "m_p.tga"), .img imgA89), (("golden", "m_p.tga"), .img imgB89)]⟩

/-- C6 witness: computed similarity exactly 0.89 against configured
threshold 0.90 — the outcome fails and records thresholdUsed 0.90, not the
default 0.95. -/
theorem c6_witness :
    compare_screenshots true cfgW6 posW6 fsW6 =
      .ok (some { map_name := "m", position := "p", ssim := 89 / 100,
                  mse := ((29 / 7 : ℚ) : WithTop ℚ), passed := false,
                  threshold := 0.9 }, fsW6) := by
  have h := (c6_threshold_decision cfgW6 posW6 fsW6 imgA89 imgB89 (89 / 100)
    rfl rfl ssim89).1
  rw [h]
  have hmse : calculate_mse true imgA89 imgB89 = ((29 / 7 : ℚ) : WithTop ℚ) := by
    unfold calculate_mse
    rw [if_neg (by simp), if_neg (by simp [npShape, imgA89, imgB89])]
    congr 1
    norm_num [listMean, imgA89, imgB89, List.zipWith]
  have hth : thresholdOf posW6 = 0.9 := rfl
  have hpass : decide ((thresholdOf posW6 : ℝ) ≤ (89 / 100 : ℝ)) = false := by
    apply decide_eq_false
    rw [hth]
    push_cast
    norm_num
  rw [hmse, hpass, hth]
  rfl

/-- Position with configured threshold 0.5 for the C7 counterexample. -/
def posW7 : TestPosition := ⟨"p", 0, 0, 0, 0, 0, some 0.5⟩

/-- Config for the C7 scenarios. -/
def cfgW7 : ParityConfig := ⟨"m", "game", "shots", "golden", [posW7], [], 30⟩

/-- Filesystem for the C7 scenarios: candidate present, reference missing. -/
def fsW7 : FS := ⟨[], [(("shots", "m_p.tga"), .img imgUnit)]⟩

/-- C7 counterexample: a position configured with `ssim_threshold = 0.5`
whose reference is missing takes the bootstrap path, and the recorded
outcome carries `thresholdUsed = 0.95`, not the configured value — so a
production path on which the recorded threshold differs from the position's
configured threshold does exist. -/
theorem c7_counterexample :
    posW7.ssim_threshold = some 0.5 ∧
    compare_screenshots true cfgW7 posW7 fsW7 =
      .ok (some { map_name := "m", position := "p", ssim := 1, mse := 0,
                  passed := true, threshold := 0.95 },
           bootstrapFS cfgW7 posW7 fsW7 imgUnit) ∧
    (0.95 : ℚ) ≠ thresholdOf posW7 := by
  exact ⟨rfl, rfl, by norm_num [thresholdOf, posW7]⟩

/-- C7 (amended): every recorded outcome's `thresholdUsed` is determined by
the reference-existence split — the configured-or-default threshold on the
normal comparison path, but always the hard-coded 0.95 on the bootstrap
(missing-reference) path, regardless of the configured value. -/
theorem c7_threshold_recorded (hasPIL : Bool) (cfg : ParityConfig)
    (pos : TestPosition) (fs fs' : FS) (r : ComparisonResult)
    (h : compare_screenshots hasPIL cfg pos fs = .ok (some r, fs')) :
    r.threshold =
      (match fs.lookup (cfg.golden_dir, screenshotName cfg pos) with
       | none => (0.95 : ℚ)
       | some _ => thresholdOf pos) := by
  unfold compare_screenshots at h
  split at h
  · simp at h
  · dsimp only at h
    split at h
    · simp at h
    · split at h
      · split at h
        · simp at h
        · simp only [Except.ok.injEq, Prod.mk.injEq, Option.some.injEq] at h
          rw [← h.1]
      · split at h
        · split at h
          · simp at h
          · simp only [Except.ok.injEq, Prod.mk.injEq, Option.some.injEq] at h
            rw [← h.1]
        · simp at h

/-- C7 witness for the amended theorem: a concrete bootstrap-path outcome
records exactly the threshold prescribed by the reference-existence split. -/
theorem c7_witness :
    ({ map_name := "m", position := "p", ssim := 1, mse := 0, passed := true,
       threshold := 0.95 } : ComparisonResult).threshold =
      (match fsW7.lookup ("golden", screenshotName cfgW7 posW7) with
       | none => (0.95 : ℚ)
       | some _ => thresholdOf posW7) :=
  c7_threshold_recorded true cfgW7 posW7 fsW7
    (bootstrapFS cfgW7 posW7 fsW7 imgUnit) _ rfl

lemma processPositions_nil (hasPIL : Bool) (cfg : ParityConfig)
    (env : ℕ → LaunchOutcome) (i : ℕ) (acc : List ComparisonResult) (fs : FS) :
    processPositions hasPIL cfg env i [] acc fs = .ok (acc, fs) := rfl

lemma processPositions_cons_some {hasPIL : Bool} {cfg : ParityConfig}
    {env : ℕ → LaunchOutcome} {i : ℕ} {pos : TestPosition}
    {rest : List TestPosition} {acc : List ComparisonResult} {fs : FS}
    {r : ComparisonResult} {fs1 : FS} {k : Bool}
    (h : posStep hasPIL cfg env i pos fs = .ok (some r, fs1, k)) :
    processPositions hasPIL cfg env i (pos :: rest) acc fs =
      processPositions hasPIL cfg env (i + 1) rest (acc ++ [r]) fs1 := by
  simp only [processPositions]
  rw [h]

lemma processPositions_cons_none {hasPIL : Bool} {cfg : ParityConfig}
    {env : ℕ → LaunchOutcome} {i : ℕ} {pos : TestPosition}
    {rest : List TestPosition} {acc : List ComparisonResult} {fs : FS}
    {fs1 : FS} {k : Bool}
    (h : posStep hasPIL cfg env i pos fs = .ok (none, fs1, k)) :
    processPositions hasPIL cfg env i (pos :: rest) acc fs =
      processPositions hasPIL cfg env (i + 1) rest acc fs1 := by
  simp only [processPositions]
  rw [h]

lemma processPositions_cons_error {hasPIL : Bool} {cfg : ParityConfig}
    {env : ℕ → LaunchOutcome} {i : ℕ} {pos : TestPosition}
    {rest : List TestPosition} {acc : List ComparisonResult} {fs : FS}
    (h : posStep hasPIL cfg env i pos fs = .error ()) :
    processPositions hasPIL cfg env i (pos :: rest) acc fs = .error () := by
  simp only [processPositions]
  rw [h]

lemma docFree_write_img {fs : FS} (p : FKey) (i : Img) (h : docFree fs) :
    docFree (fs.write p (.img i)) := by
  intro q res
  rw [lookup_write]
  split
  · simp
  · exact h q res

lemma docFree_mkdir {fs : FS} (d : String) (h : docFree fs) :
    docFree (fs.mkdir d) := by
  intro q res
  rw [lookup_mkdir]
  exact h q res

lemma compare_docFree {hasPIL : Bool} {cfg : ParityConfig} {pos : TestPosition}
    {fs : FS} {r : Option ComparisonResult} {fs' : FS}
    (h : compare_screenshots hasPIL cfg pos fs = .ok (r, fs'))
    (hd : docFree fs) : docFree fs' := by
  unfold compare_screenshots at h
  split at h
  · simp only [Except.ok.injEq, Prod.mk.injEq] at h
    rw [← h.2]
    exact hd
  · dsimp only at h
    split at h
    · simp only [Except.ok.injEq, Prod.mk.injEq] at h
      rw [← h.2]
      exact hd
    · split at h
      · split at h
        · simp at h
        · simp only [Except.ok.injEq, Prod.mk.injEq] at h
          rw [← h.2]
          exact docFree_write_img _ _ (docFree_mkdir _ hd)
      · split at h
        · split at h
          · simp at h
          · simp only [Except.ok.injEq, Prod.mk.injEq] at h
            rw [← h.2]
            exact hd
        · simp only [Except.ok.injEq, Prod.mk.injEq] at h
          rw [← h.2]
          exact hd

lemma launch_docFree {cfg : ParityConfig} {pos : TestPosition}
    {outcome : LaunchOutcome} {fs : FS} (hd : docFree fs) :
    docFree (launch_game_headless cfg pos outcome fs).2.1 := by
  unfold launch_game_headless
  cases outcome with
  | noExe => exact hd
  | timeout => exact hd
  | exited shot =>
    cases shot with
    | none => exact hd
    | some img => exact docFree_write_img _ _ hd

lemma posStep_docFree {hasPIL : Bool} {cfg : ParityConfig}
    {env : ℕ → LaunchOutcome} {i : ℕ} {pos : TestPosition} {fs : FS}
    {r : Option ComparisonResult} {fs1 : FS} {k : Bool}
    (h : posStep hasPIL cfg env i pos fs = .ok (r, fs1, k))
    (hd : docFree fs) : docFree fs1 := by
  unfold posStep at h
  have hlaunch := @launch_docFree cfg pos (env i) fs hd
  cases hl : launch_game_headless cfg pos (env i) fs with
  | mk b rest2 =>
    obtain ⟨fsA, kA⟩ := rest2
    rw [hl] at h hlaunch
    cases b
    · dsimp only at h
      simp only [Except.ok.injEq, Prod.mk.injEq] at h
      rw [← h.2.1]
      exact hlaunch
    · dsimp only at h
      cases hc : compare_screenshots hasPIL cfg pos fsA with
      | error e => rw [hc] at h; simp at h
      | ok v =>
        obtain ⟨rB, fsB⟩ := v
        rw [hc] at h
        dsimp only at h
        simp only [Except.ok.injEq, Prod.mk.injEq] at h
        rw [← h.2.1]
        exact compare_docFree hc hlaunch

lemma processPositions_docFree {hasPIL : Bool} {cfg : ParityConfig}
    {env : ℕ → LaunchOutcome} :
    ∀ (ps : List TestPosition) (i : ℕ) (acc : List ComparisonResult) (fs : FS)
      (results : List ComparisonResult) (fs1 : FS),
    processPositions hasPIL cfg env i ps acc fs = .ok (results, fs1) →
    docFree fs → docFree fs1 := by
  intro ps
  induction ps with
  | nil =>
    intro i acc fs results fs1 h hd
    rw [processPositions_nil] at h
    simp only [Except.ok.injEq, Prod.mk.injEq] at h
    rw [← h.2]
    exact hd
  | cons p rest ih =>
    intro i acc fs results fs1 h hd
    cases hstep : posStep hasPIL cfg env i p fs with
    | error e =>
      cases e
      rw [processPositions_cons_error hstep] at h
      simp at h
    | ok v =>
      obtain ⟨rOpt, fsA, k⟩ := v
      have hdA : docFree fsA := posStep_docFree hstep hd
      cases rOpt with
      | none =>
        rw [processPositions_cons_none hstep] at h
        exact ih _ _ _ _ _ h hdA
      | some r =>
        rw [processPositions_cons_some hstep] at h
        exact ih _ _ _ _ _ h hdA

/-- C4: for every run that completes with normal report I/O, the overall
result is true iff every recorded outcome passed (vacuously true when no
outcome was recorded), the report is written exactly when at least one
outcome was recorded, and the process exit code is 0 exactly when the
overall result is true. -/
theorem c4_overall_result (hasPIL : Bool) (cfg : ParityConfig)
    (env : ℕ → LaunchOutcome) (fs fs' : FS) (success : Bool)
    (results : List ComparisonResult)
    (hrun : runTester hasPIL cfg env true fs = .ok (success, results, fs'))
    (hclean : docFree fs) :
    success = results.all (fun r => r.passed) ∧
    (success = true ↔ ∀ r ∈ results, r.passed = true) ∧
    (results = [] → success = true) ∧
    (results ≠ [] → fs'.lookup (cfg.screenshot_dir, reportName) = some (.doc results)) ∧
    (results = [] → docFree fs') ∧
    mainExitCode hasPIL cfg env true fs = (if success then 0 else 1) := by
  have hmain : mainExitCode hasPIL cfg env true fs = if success then 0 else 1 := by
    unfold mainExitCode
    rw [hrun]
  unfold runTester at hrun
  dsimp only at hrun
  cases hproc : processPositions hasPIL cfg env 0 cfg.test_positions []
      ((fs.mkdir cfg.screenshot_dir).mkdir cfg.golden_dir) with
  | error e =>
    rw [hproc] at hrun
    simp at hrun
  | ok v =>
    obtain ⟨res, fs1⟩ := v
    rw [hproc] at hrun
    dsimp only at hrun
    have hd1 : docFree fs1 :=
      processPositions_docFree cfg.test_positions 0 [] _ res fs1 hproc
        (docFree_mkdir _ (docFree_mkdir _ hclean))
    by_cases hres : res.isEmpty = true
    · rw [if_pos hres] at hrun
      dsimp only at hrun
      simp only [Except.ok.injEq, Prod.mk.injEq] at hrun
      obtain ⟨hs, hr, hf⟩ := hrun
      have hresnil : res = [] := by simpa [List.isEmpty_iff] using hres
      subst hr hf hs hresnil
      refine ⟨rfl, by simp, by simp, by simp, fun _ => hd1, hmain⟩
    · rw [if_neg hres] at hrun
      unfold generate_report at hrun
      rw [if_pos rfl] at hrun
      dsimp only at hrun
      simp only [Except.ok.injEq, Prod.mk.injEq] at hrun
      obtain ⟨hs, hr, hf⟩ := hrun
      subst hr hf hs
      have hnil : res ≠ [] := by
        intro hcon
        rw [hcon] at hres
        simp at hres
      refine ⟨rfl, by simp [List.all_eq_true], fun hcon => absurd hcon hnil,
        fun _ => lookup_write_self _ _ _, fun hcon => absurd hcon hnil, hmain⟩

/-- Empty-position config for the C4 witness. -/
def cfgW4 : ParityConfig := ⟨"m", "game", "shots", "golden", [], [], 30⟩

/-- Launch environment for the C4 witness. -/
def envW4 : ℕ → LaunchOutcome := fun _ => .noExe

/-- Empty filesystem. -/
def fsEmpty : FS := ⟨[], []⟩

lemma docFree_fsEmpty : docFree fsEmpty := by
  intro p r
  simp [FS.lookup, findFile, fsEmpty]

/-- C4 witness: a run with zero positions is a vacuous success and exits 0. -/
theorem c4_witness : mainExitCode true cfgW4 envW4 true fsEmpty = 0 := by
  have h := c4_overall_result true cfgW4 envW4 fsEmpty
    ((fsEmpty.mkdir cfgW4.screenshot_dir).mkdir cfgW4.golden_dir) true [] rfl
    docFree_fsEmpty
  simpa using h.2.2.2.2.2

/-- C5: in a run whose second of three positions times out, the timed-out
position's process is killed and it contributes no outcome, while the run
continues: the result list is exactly the two outcomes of positions 1 and 3,
in that order, and the overall result is the conjunction of their passed
flags. -/
theorem c5_timeout_skips (hasPIL : Bool) (cfg : ParityConfig)
    (env : ℕ → LaunchOutcome) (fs : FS)
    (p1 p2 p3 : TestPosition) (r1 r3 : ComparisonResult)
    (fs1 fs3 : FS) (k1 k3 : Bool)
    (hpos : cfg.test_positions = [p1, p2, p3])
    (htime : env 1 = .timeout)
    (h1 : posStep hasPIL cfg env 0 p1
        ((fs.mkdir cfg.screenshot_dir).mkdir cfg.golden_dir) = .ok (some r1, fs1, k1))
    (h3 : posStep hasPIL cfg env 2 p3 fs1 = .ok (some r3, fs3, k3)) :
    posStep hasPIL cfg env 1 p2 fs1 = .ok (none, fs1, true) ∧
    runTester hasPIL cfg env true fs =
      .ok (r1.passed && r3.passed, [r1, r3],
           fs3.write (cfg.screenshot_dir, reportName) (.doc [r1, r3])) := by
  have hstep2 : posStep hasPIL cfg env 1 p2 fs1 = .ok (none, fs1, true) := by
    unfold posStep launch_game_headless
    rw [htime]
  refine ⟨hstep2, ?_⟩
  have h1' : posStep hasPIL cfg env 0 p1
      ((fs.mkdir cfg.screenshot_dir).mkdir cfg.golden_dir) = .ok (some r1, fs1, k1) := h1
  have hproc : processPositions hasPIL cfg env 0 [p1, p2, p3] []
      ((fs.mkdir cfg.screenshot_dir).mkdir cfg.golden_dir) = .ok ([r1, r3], fs3) := by
    rw [processPositions_cons_some h1']
    norm_num
    rw [processPositions_cons_none hstep2]
    norm_num
    rw [processPositions_cons_some h3]
    norm_num [processPositions_nil]
  unfold runTester
  rw [hpos]
  dsimp only
  rw [hproc]
  dsimp only
  rw [if_neg (by simp)]
  unfold generate_report
  rw [if_pos rfl]
  dsimp only
  simp

/-- Positions for the C5 witness. -/
def posW5a : TestPosition := ⟨"p1", 0, 0, 0, 0, 0, none⟩

/-- Second position for the C5 witness (its launch times out). -/
def posW5b : TestPosition := ⟨"p2", 0, 0, 0, 0, 0, none⟩

/-- Third position for the C5 witness. -/
def posW5c : TestPosition := ⟨"p3", 0, 0, 0, 0, 0, none⟩

/-- Config for the C5 witness. -/
def cfgW5 : ParityConfig :=
  ⟨"m", "game", "shots", "golden", [posW5a, posW5b, posW5c], [], 30⟩

/-- Launch environment for the C5 witness: position 2 times out, the others
capture a screenshot. -/
def envW5 : ℕ → LaunchOutcome :=
  fun i => if i = 1 then .timeout else .exited (some imgUnit)

/-- C5 witness: the concrete three-position run records exactly the outcomes
of positions 1 and 3, in order, and succeeds. -/
theorem c5_witness :
    Except.map (fun x => (x.1, x.2.1.map (fun r => r.position)))
        (runTester true cfgW5 envW5 true fsEmpty) = .ok (true, ["p1", "p3"]) := by
  have h := c5_timeout_skips true cfgW5 envW5 fsEmpty posW5a posW5b posW5c
    _ _ _ _ _ _ rfl rfl rfl rfl
  rw [h.2]
  rfl

/-- C9 (amended): when at least one outcome was recorded and writing the
report fails, the exception propagates out of `run` uncaught — the run
yields no boolean result and the interpreter exits 1 regardless of whether
the recorded outcomes passed. -/
theorem c9_report_failure_fatal (hasPIL : Bool) (cfg : ParityConfig)
    (env : ℕ → LaunchOutcome) (fs : FS) (results : List ComparisonResult)
    (fs1 : FS)
    (hproc : processPositions hasPIL cfg env 0 cfg.test_positions []
        ((fs.mkdir cfg.screenshot_dir).mkdir cfg.golden_dir) = .ok (results, fs1))
    (hne : results ≠ []) :
    runTester hasPIL cfg env false fs = .error () ∧
    mainExitCode hasPIL cfg env false fs = 1 := by
  have hrun : runTester hasPIL cfg env false fs = .error () := by
    unfold runTester
    dsimp only
    rw [hproc]
    dsimp only
    rw [if_neg (by simpa [List.isEmpty_iff] using hne)]
    unfold generate_report
    rw [if_neg (by simp)]
  exact ⟨hrun, by unfold mainExitCode; rw [hrun]⟩

/-- One-position config for the C9 scenarios. -/
def cfgW9 : ParityConfig := ⟨"m", "game", "shots", "golden", [posW5a], [], 30⟩

/-- Launch environment for the C9 scenarios: the screenshot is captured. -/
def envW9 : ℕ → LaunchOutcome := fun _ => .exited (some imgUnit)

/-- C9 counterexample: the very same fully passing run exits 0 when the
report write succeeds but aborts (exit code 1) when the report write fails —
so a report-generation failure does change the run's result and exit
status, contrary to the claim. -/
theorem c9_counterexample :
    mainExitCode true cfgW9 envW9 true fsEmpty = 0 ∧
    runTester true cfgW9 envW9 false fsEmpty = .error () ∧
    mainExitCode true cfgW9 envW9 false fsEmpty = 1 := ⟨rfl, rfl, rfl⟩

/-- C9 witness for the amended theorem, at the concrete passing run. -/
theorem c9_witness :
    runTester true cfgW9 envW9 false fsEmpty = .error () ∧
    mainExitCode true cfgW9 envW9 false fsEmpty = 1 :=
  c9_report_failure_fatal true cfgW9 envW9 fsEmpty _ _ rfl (by simp)

lemma posStep_noPIL (cfg : ParityConfig) (env : ℕ → LaunchOutcome) (i : ℕ)
    (pos : TestPosition) (fs : FS) :
    posStep false cfg env i pos fs =
      .ok (none, (launch_game_headless cfg pos (env i) fs).2.1,
           (launch_game_headless cfg pos (env i) fs).2.2) := by
  unfold posStep
  cases hl : launch_game_headless cfg pos (env i) fs with
  | mk b rest2 =>
    obtain ⟨fsA, k⟩ := rest2
    cases b
    · rfl
    · rfl

lemma processPositions_noPIL (cfg : ParityConfig) (env : ℕ → LaunchOutcome) :
    ∀ (ps : List TestPosition) (i : ℕ) (acc : List ComparisonResult) (fs : FS),
    ∃ fs', processPositions false cfg env i ps acc fs = .ok (acc, fs') := by
  intro ps
  induction ps with
  | nil => exact fun i acc fs => ⟨fs, rfl⟩
  | cons p rest ih =>
    intro i acc fs
    obtain ⟨fs', h⟩ := ih (i + 1) acc (launch_game_headless cfg p (env i) fs).2.1
    exact ⟨fs', by rw [processPositions_cons_none (posStep_noPIL cfg env i p fs), h]⟩

/-- C10: when PIL/numpy are unavailable (`HAS_PIL = false`), the comparator
returns no outcome for any position — even one whose screenshot exists — so
every run records zero outcomes, the orchestrator returns true, and the
process exits 0: the missing dependency silently yields a reported
success. -/
theorem c10_missing_pil_silent_success :
    (∀ (cfg : ParityConfig) (pos : TestPosition) (fs : FS),
        compare_screenshots false cfg pos fs = .ok (none, fs)) ∧
    (∀ (cfg : ParityConfig) (env : ℕ → LaunchOutcome) (writeOk : Bool) (fs : FS),
        Except.map (fun x => (x.1, x.2.1)) (runTester false cfg env writeOk fs) =
          .ok (true, []) ∧
        mainExitCode false cfg env writeOk fs = 0) := by
  constructor
  · intro cfg pos fs
    rfl
  · intro cfg env writeOk fs
    obtain ⟨fs', hp⟩ := processPositions_noPIL cfg env cfg.test_positions 0 []
      ((fs.mkdir cfg.screenshot_dir).mkdir cfg.golden_dir)
    have hrun : runTester false cfg env writeOk fs = .ok (true, [], fs') := by
      unfold runTester
      dsimp only
      rw [hp]
      rfl
    constructor
    · rw [hrun]
      rfl
    · unfold mainExitCode
      rw [hrun]
      rfl

/-- C1 witness: a concrete same-shape pair on which the code equals the
spec's algorithm and the value lies in [0, 1]. -/
theorem c1_witness :
    calculate_ssim true imgA89 imgB89 = some (spec_similarity imgA89 imgB89) ∧
    0 ≤ spec_similarity imgA89 imgB89 ∧ spec_similarity imgA89 imgB89 ≤ 1 :=
  c1_similarity_matches_spec imgA89 imgB89 rfl rfl rfl rfl
